import Mathlib

set_option linter.unusedVariables false

/-!
Verification development for the polymarketv3 trading bot.

The Python sources under src/polymarketv3 are shallowly embedded here:
pure computations become Lean functions over exact rationals, stateful
methods become explicit state passing, network and database reads become
oracle parameters (a function argument standing for the value the call
returned), and fallible paths return Option. Field names and function
names follow the source where Lean allows. String-typed formatting-only
fields (for example Signal.reason and log text) are elided, as are
wall-clock timestamps that the verified properties never read; where a
timestamp matters it is passed explicitly as a rational number of hours.
-/

namespace Polymarketv3

/-- Embeds market_fetcher.Market. Fields not read by any verified code
path (slug, condition_id, outcomes, end_date, description) are elided. -/
structure Market where
  id : String
  question : String
  token_id_yes : String
  token_id_no : String
  price_yes : ℚ
  price_no : ℚ
  volume : ℚ
  liquidity : ℚ
  category : String
deriving DecidableEq, Repr

/-- Embeds strategy.Signal. The reason field is a formatted log string in
the source and carries no data the program later reads; it is elided. -/
structure Signal where
  market : Market
  side : String
  strategy : String
  edge_pct : ℚ
  confidence : ℚ
  entry_price : ℚ
deriving DecidableEq, Repr

/-- Embeds Signal.score: edge_pct times confidence. -/
def Signal.score (s : Signal) : ℚ := s.edge_pct * s.confidence

/-- Descending-score comparison used by the Python list.sort calls with
key lambda s: s.score and reverse=True. -/
def sigGE (a b : Signal) : Prop := b.score ≤ a.score

instance : DecidableRel sigGE := fun a b => inferInstanceAs (Decidable (b.score ≤ a.score))

/-- Counts the consecutive price deltas whose sign agrees with the move
direction: the sum over i of the indicator of (prices[i+1]-prices[i]) *
direction > 0, from strategy.find_momentum_signals. -/
def countAgreeing : List ℚ → ℚ → Nat
  | p1 :: p2 :: rest, d => (if (p2 - p1) * d > 0 then 1 else 0) + countAgreeing (p2 :: rest) d
  | _, _ => 0

/-- Embeds the per-market body of strategy.find_momentum_signals. The
argument hist stands for db.get_price_history(token, hours=lookback_hours)
projected to the stored price_yes column; the lookback filtering happens
inside that database query and is absorbed into the oracle. Returns the
signal appended for this market, if any. -/
def momentumSignal (hist : String → List ℚ) (min_snapshots : Nat)
    (min_move_pct consistency_threshold : ℚ) (m : Market) : Option Signal :=
  if m.price_yes < 1/10 ∨ m.price_yes > 9/10 then none
  else
    let prices := hist m.token_id_yes
    if prices.length < min_snapshots then none
    else
      match prices.head?, prices.getLast? with
      | some oldest, some newest =>
        if oldest ≤ 0 then none
        else
          let total_move := newest - oldest
          let total_move_pct := |total_move / oldest| * 100
          if total_move_pct < min_move_pct then none
          else
            let direction : ℚ := if total_move > 0 then 1 else -1
            let intervals := prices.length - 1
            let agreeing := countAgreeing prices direction
            let consistency := (agreeing : ℚ) / (intervals : ℚ)
            if consistency < consistency_threshold then none
            else
              let decay := max (3/10) (1 - total_move_pct / 50)
              let edge := total_move_pct * consistency * decay
              if direction > 0 then
                some { market := m, side := "YES", strategy := "momentum",
                       edge_pct := edge, confidence := min consistency (19/20),
                       entry_price := m.price_yes }
              else
                some { market := m, side := "NO", strategy := "momentum",
                       edge_pct := edge, confidence := min consistency (19/20),
                       entry_price := m.price_no }
      | _, _ => none

/-- Embeds strategy.find_momentum_signals: collect the per-market signals
in market order, then sort by score descending. -/
def find_momentum_signals (hist : String → List ℚ) (min_snapshots : Nat)
    (min_move_pct consistency_threshold : ℚ) (markets : List Market) : List Signal :=
  List.insertionSort sigGE (markets.filterMap (momentumSignal hist min_snapshots min_move_pct consistency_threshold))

/-- find_momentum_signals at the source default parameters:
min_snapshots=3, min_move_pct=5.0, consistency_threshold=0.65. -/
def find_momentum_signals_default (hist : String → List ℚ) (markets : List Market) : List Signal :=
  find_momentum_signals hist 3 5 (13/20) markets

theorem momentumSignal_some_props {hist : String → List ℚ} {m : Market} {s : Signal}
    (h : momentumSignal hist 3 5 (13/20) m = some s) :
    s.market = m ∧ (13/20 ≤ s.confidence ∧ s.confidence ≤ 19/20) ∧ 0 < s.edge_pct ∧
    3 ≤ (hist m.token_id_yes).length ∧
    ∃ first last, (hist m.token_id_yes).head? = some first ∧
      (hist m.token_id_yes).getLast? = some last ∧
      ((s.side = "YES" ∧ first < last) ∨ (s.side = "NO" ∧ last < first)) := by
  simp only [momentumSignal] at h
  split at h
  · exact absurd h (by simp)
  rename_i hrange
  split at h
  · exact absurd h (by simp)
  rename_i hlen
  split at h
  rotate_left
  · exact absurd h (by simp)
  rename_i oldest newest hhead hlast
  split at h
  · exact absurd h (by simp)
  rename_i holdpos
  split at h
  · exact absurd h (by simp)
  rename_i hmove
  have hlen3 : 3 ≤ (hist m.token_id_yes).length := by omega
  have hmovege : (5:ℚ) ≤ |(newest - oldest) / oldest| * 100 := le_of_not_lt hmove
  have hmovepos : (0:ℚ) < |(newest - oldest) / oldest| * 100 := lt_of_lt_of_le (by norm_num) hmovege
  have hdecaypos : (0:ℚ) < max (3/10) (1 - |(newest - oldest) / oldest| * 100 / 50) :=
    lt_of_lt_of_le (by norm_num) (le_max_left _ _)
  have hmovene : newest - oldest ≠ 0 := by
    intro h0
    rw [h0] at hmovege
    norm_num at hmovege
  by_cases hdir : newest - oldest > 0
  · rw [if_pos hdir] at h
    split at h
    · exact absurd h (by simp)
    rename_i hcons
    rw [if_pos (by norm_num : (1:ℚ) > 0), Option.some_inj] at h
    have hconsge : (13:ℚ)/20 ≤ (countAgreeing (hist m.token_id_yes) 1 : ℚ) /
        (((hist m.token_id_yes).length - 1 : ℕ) : ℚ) := le_of_not_lt hcons
    have hconspos : (0:ℚ) < (countAgreeing (hist m.token_id_yes) 1 : ℚ) /
        (((hist m.token_id_yes).length - 1 : ℕ) : ℚ) := lt_of_lt_of_le (by norm_num) hconsge
    subst h
    refine ⟨rfl, ⟨le_min hconsge (by norm_num), min_le_right _ _⟩,
      mul_pos (mul_pos hmovepos hconspos) hdecaypos, hlen3,
      oldest, newest, hhead, hlast, Or.inl ⟨rfl, by linarith⟩⟩
  · rw [if_neg hdir] at h
    split at h
    · exact absurd h (by simp)
    rename_i hcons
    rw [if_neg (by norm_num : ¬((-1:ℚ) > 0)), Option.some_inj] at h
    have hconsge : (13:ℚ)/20 ≤ (countAgreeing (hist m.token_id_yes) (-1) : ℚ) /
        (((hist m.token_id_yes).length - 1 : ℕ) : ℚ) := le_of_not_lt hcons
    have hconspos : (0:ℚ) < (countAgreeing (hist m.token_id_yes) (-1) : ℚ) /
        (((hist m.token_id_yes).length - 1 : ℕ) : ℚ) := lt_of_lt_of_le (by norm_num) hconsge
    have hlt : newest - oldest < 0 := lt_of_le_of_ne (not_lt.mp hdir) hmovene
    subst h
    exact ⟨rfl, ⟨le_min hconsge (by norm_num), min_le_right _ _⟩,
      mul_pos (mul_pos hmovepos hconspos) hdecaypos, hlen3,
      oldest, newest, hhead, hlast, Or.inr ⟨rfl, by linarith⟩⟩

/-- Concrete market used to exercise the momentum strategy. -/
def c7Mkt : Market :=
  { id := "m1", question := "q", token_id_yes := "ty", token_id_no := "tn",
    price_yes := 1/2, price_no := 1/2, volume := 100000, liquidity := 20000,
    category := "crypto" }

/-- Concrete 3-snapshot uptrending YES price history. -/
def c7Hist : String → List ℚ := fun _ => [2/5, 9/20, 1/2]

/-- The signal the momentum strategy emits on c7Mkt with c7Hist. -/
def c7Sig : Signal :=
  { market := c7Mkt, side := "YES", strategy := "momentum", edge_pct := 25/2,
    confidence := 19/20, entry_price := 1/2 }

/-- C7: with default parameters, every momentum signal has
0.65 ≤ confidence ≤ 0.95 and edge_pct > 0, its side matches the sign of
the net move of the stored YES price history (YES for a positive move,
NO for a negative one), its market has at least 3 stored snapshots in
the lookback window, and 3 snapshots is the minimum that can produce a
signal (a concrete 3-snapshot history does). -/
theorem momentum_signal_properties_c7 :
    (∀ (hist : String → List ℚ) (markets : List Market) (s : Signal),
        s ∈ find_momentum_signals_default hist markets →
        (13/20 ≤ s.confidence ∧ s.confidence ≤ 19/20) ∧ 0 < s.edge_pct ∧
        3 ≤ (hist s.market.token_id_yes).length ∧
        s.market ∈ markets ∧
        ∃ first last, (hist s.market.token_id_yes).head? = some first ∧
          (hist s.market.token_id_yes).getLast? = some last ∧
          ((s.side = "YES" ∧ first < last) ∨ (s.side = "NO" ∧ last < first)))
    ∧ (∃ (hist : String → List ℚ) (m : Market),
        (hist m.token_id_yes).length = 3 ∧ find_momentum_signals_default hist [m] ≠ []) := by
  constructor
  · intro hist markets s hs
    rw [find_momentum_signals_default, find_momentum_signals, List.mem_insertionSort,
      List.mem_filterMap] at hs
    obtain ⟨m, hm, hsig⟩ := hs
    obtain ⟨hmkt, hconf, hedge, hlen, hsides⟩ := momentumSignal_some_props hsig
    subst hmkt
    exact ⟨hconf, hedge, hlen, hm, hsides⟩
  · refine ⟨c7Hist, c7Mkt, by norm_num [c7Hist, c7Mkt], ?_⟩
    norm_num [find_momentum_signals_default, find_momentum_signals, momentumSignal, c7Hist,
      c7Mkt, countAgreeing, abs_of_nonneg, max_def, List.filterMap_cons, List.insertionSort]

/-- Witness for C7: the universal part applied at a concrete history and
market, with the membership hypothesis discharged by evaluation. -/
theorem momentum_signal_properties_c7_witness :
    c7Sig ∈ find_momentum_signals_default c7Hist [c7Mkt] ∧
    (13/20 ≤ c7Sig.confidence ∧ c7Sig.confidence ≤ 19/20) ∧ 0 < c7Sig.edge_pct := by
  have hmem : c7Sig ∈ find_momentum_signals_default c7Hist [c7Mkt] := by
    norm_num [find_momentum_signals_default, find_momentum_signals, momentumSignal, c7Hist,
      c7Mkt, countAgreeing, c7Sig, abs_of_nonneg, max_def, List.filterMap_cons,
      List.insertionSort]
  have hprops := momentum_signal_properties_c7.1 c7Hist [c7Mkt] c7Sig hmem
  exact ⟨hmem, hprops.1, hprops.2.1⟩

/-- Descending edge_pct comparison used by find_arbitrage_signals. -/
def edgeGE (a b : Signal) : Prop := b.edge_pct ≤ a.edge_pct

instance : DecidableRel edgeGE := fun a b => inferInstanceAs (Decidable (b.edge_pct ≤ a.edge_pct))

/-- Embeds the per-market body of strategy.find_arbitrage_signals. The
argument asks stands for strategy._get_best_ask, which reads the live
orderbook and returns None on a missing book, an empty ask side, or any
transport error. -/
def arbSignal (asks : String → Option ℚ) (min_profit_pct fee_estimate : ℚ) (m : Market) :
    Option Signal :=
  if m.price_yes + m.price_no ≥ 199/200 then none
  else
    match asks m.token_id_yes, asks m.token_id_no with
    | some yes_ask, some no_ask =>
      let live_combined := yes_ask + no_ask
      let total_fees := (yes_ask + no_ask) * fee_estimate * 2
      let net_profit := 1 - live_combined - total_fees
      let net_profit_pct := net_profit * 100
      if net_profit_pct < min_profit_pct then none
      else some { market := m, side := "ARB", strategy := "arbitrage",
                  edge_pct := net_profit_pct, confidence := 19/20,
                  entry_price := live_combined }
    | _, _ => none

/-- Embeds strategy.find_arbitrage_signals: collect per-market signals in
market order, then sort by edge_pct descending. -/
def find_arbitrage_signals (asks : String → Option ℚ) (min_profit_pct fee_estimate : ℚ)
    (markets : List Market) : List Signal :=
  List.insertionSort edgeGE (markets.filterMap (arbSignal asks min_profit_pct fee_estimate))

/-- find_arbitrage_signals at the source default parameters:
min_profit_pct=1.5, fee_estimate=0.002. -/
def find_arbitrage_signals_default (asks : String → Option ℚ) (markets : List Market) :
    List Signal :=
  find_arbitrage_signals asks (3/2) (1/500) markets

theorem arbSignal_some_iff (asks : String → Option ℚ) (m : Market) :
    (∃ s, arbSignal asks (3/2) (1/500) m = some s) ↔
    (m.price_yes + m.price_no < 199/200 ∧
      ∃ yes_ask no_ask, asks m.token_id_yes = some yes_ask ∧ asks m.token_id_no = some no_ask ∧
        (3:ℚ)/2 ≤ (1 - (yes_ask + no_ask) - (yes_ask + no_ask) * (1/500) * 2) * 100) := by
  constructor
  · rintro ⟨s, hs⟩
    simp only [arbSignal] at hs
    split at hs
    · exact absurd hs (by simp)
    rename_i hsum
    split at hs
    rotate_left
    · exact absurd hs (by simp)
    rename_i yes_ask no_ask hya hna
    split at hs
    · exact absurd hs (by simp)
    rename_i hprofit
    exact ⟨lt_of_not_le hsum, yes_ask, no_ask, hya, hna, le_of_not_lt hprofit⟩
  · rintro ⟨hsum, yes_ask, no_ask, hya, hna, hprofit⟩
    refine ⟨{ market := m, side := "ARB", strategy := "arbitrage",
              edge_pct := (1 - (yes_ask + no_ask) - (yes_ask + no_ask) * (1/500) * 2) * 100,
              confidence := 19/20, entry_price := yes_ask + no_ask }, ?_⟩
    simp only [arbSignal, hya, hna]
    rw [if_neg (not_le.mpr hsum), if_neg (not_lt.mpr hprofit)]

theorem arbSignal_some_shape {asks : String → Option ℚ} {m : Market} {s : Signal}
    (h : arbSignal asks (3/2) (1/500) m = some s) :
    s.market = m ∧ s.side = "ARB" ∧ s.confidence = 19/20 ∧
    ∃ yes_ask no_ask, asks m.token_id_yes = some yes_ask ∧ asks m.token_id_no = some no_ask ∧
      s.entry_price = yes_ask + no_ask ∧
      s.edge_pct = (1 - (yes_ask + no_ask) - (yes_ask + no_ask) * (1/500) * 2) * 100 := by
  simp only [arbSignal] at h
  split at h
  · exact absurd h (by simp)
  split at h
  rotate_left
  · exact absurd h (by simp)
  rename_i yes_ask no_ask hya hna
  split at h
  · exact absurd h (by simp)
  rw [Option.some_inj] at h
  subst h
  exact ⟨rfl, rfl, rfl, yes_ask, no_ask, hya, hna, rfl, rfl⟩

/-- C8: with default parameters, a market yields an ARB signal iff its
Gamma price sum is below 0.995, both live best asks are available, and
the fee-adjusted net profit in percent is at least min_profit_pct; every
emitted signal carries edge_pct = net_profit x 100, confidence = 0.95 and
entry_price = yes_ask + no_ask; a price sum of exactly 0.995 never yields
a signal. -/
theorem arbitrage_signal_characterization_c8 :
    (∀ (asks : String → Option ℚ) (markets : List Market) (m : Market), m ∈ markets →
      ((∃ s, s ∈ find_arbitrage_signals_default asks markets ∧ s.market = m) ↔
        (m.price_yes + m.price_no < 199/200 ∧
          ∃ yes_ask no_ask, asks m.token_id_yes = some yes_ask ∧
            asks m.token_id_no = some no_ask ∧
            (3:ℚ)/2 ≤ (1 - (yes_ask + no_ask) - (yes_ask + no_ask) * (1/500) * 2) * 100)))
    ∧ (∀ (asks : String → Option ℚ) (markets : List Market) (s : Signal),
        s ∈ find_arbitrage_signals_default asks markets →
        s.side = "ARB" ∧ s.confidence = 19/20 ∧
        ∃ yes_ask no_ask, asks s.market.token_id_yes = some yes_ask ∧
          asks s.market.token_id_no = some no_ask ∧
          s.entry_price = yes_ask + no_ask ∧
          s.edge_pct = (1 - (yes_ask + no_ask) - (yes_ask + no_ask) * (1/500) * 2) * 100)
    ∧ (∀ (asks : String → Option ℚ) (markets : List Market) (m : Market), m ∈ markets →
        m.price_yes + m.price_no = 199/200 →
        ¬∃ s, s ∈ find_arbitrage_signals_default asks markets ∧ s.market = m) := by
  have hmem : ∀ (asks : String → Option ℚ) (markets : List Market) (s : Signal),
      s ∈ find_arbitrage_signals_default asks markets ↔
      ∃ m, m ∈ markets ∧ arbSignal asks (3/2) (1/500) m = some s := by
    intro asks markets s
    rw [find_arbitrage_signals_default, find_arbitrage_signals, List.mem_insertionSort,
      List.mem_filterMap]
  refine ⟨?_, ?_, ?_⟩
  · intro asks markets m hm
    constructor
    · rintro ⟨s, hs, hsm⟩
      rw [hmem] at hs
      obtain ⟨m', hm', hsig⟩ := hs
      have hshape := arbSignal_some_shape hsig
      have hmm : m' = m := by
        rw [hshape.1] at hsm
        exact hsm
      have hcond := (arbSignal_some_iff asks m').mp ⟨s, hsig⟩
      rw [hmm] at hcond
      exact hcond
    · intro hcond
      obtain ⟨s, hs⟩ := (arbSignal_some_iff asks m).mpr hcond
      refine ⟨s, (hmem asks markets s).mpr ⟨m, hm, hs⟩, (arbSignal_some_shape hs).1⟩
  · intro asks markets s hs
    rw [hmem] at hs
    obtain ⟨m, hm, hsig⟩ := hs
    obtain ⟨hmkt, hside, hconf, hrest⟩ := arbSignal_some_shape hsig
    subst hmkt
    exact ⟨hside, hconf, hrest⟩
  · intro asks markets m hm hsum hex
    obtain ⟨s, hs, hsm⟩ := hex
    rw [hmem] at hs
    obtain ⟨m', hm', hsig⟩ := hs
    have hmm : m' = m := by
      rw [(arbSignal_some_shape hsig).1] at hsm
      exact hsm
    have hcond := (arbSignal_some_iff asks m').mp ⟨s, hsig⟩
    rw [hmm, hsum] at hcond
    exact absurd hcond.1 (by norm_num)

/-- Concrete market with a genuine arbitrage: Gamma prices 0.44/0.51,
live asks 0.45/0.52. -/
def c8Mkt : Market :=
  { id := "m2", question := "q2", token_id_yes := "ay", token_id_no := "an",
    price_yes := 11/25, price_no := 51/100, volume := 100000, liquidity := 20000,
    category := "crypto" }

/-- Live best asks for c8Mkt. -/
def c8Asks : String → Option ℚ :=
  fun t => if t = "ay" then some (9/20) else if t = "an" then some (13/25) else none

/-- Witness for C8: the characterization applied to the concrete market
c8Mkt, whose orderbook admits a verified arbitrage. -/
theorem arbitrage_signal_characterization_c8_witness :
    ((∃ s, s ∈ find_arbitrage_signals_default c8Asks [c8Mkt] ∧ s.market = c8Mkt) ↔
      (c8Mkt.price_yes + c8Mkt.price_no < 199/200 ∧
        ∃ yes_ask no_ask, c8Asks c8Mkt.token_id_yes = some yes_ask ∧
          c8Asks c8Mkt.token_id_no = some no_ask ∧
          (3:ℚ)/2 ≤ (1 - (yes_ask + no_ask) - (yes_ask + no_ask) * (1/500) * 2) * 100)) ∧
    (∃ s, s ∈ find_arbitrage_signals_default c8Asks [c8Mkt] ∧ s.market = c8Mkt) := by
  have hchar := arbitrage_signal_characterization_c8.1 c8Asks [c8Mkt] c8Mkt (by simp)
  refine ⟨hchar, hchar.mpr ?_⟩
  exact ⟨by norm_num [c8Mkt], 9/20, 13/25, by rfl, by rfl, by norm_num⟩

/-- Embeds order_manager.OrderType. -/
inductive OrderType where
  | take_profit
  | stop_loss
  | trailing_stop
  | limit_buy
  | limit_sell
deriving DecidableEq, Repr

/-- Embeds order_manager.OrderState. -/
inductive OrderState where
  | pending
  | active
  | triggered
  | executed
  | cancelled
  | failed
deriving DecidableEq, Repr

/-- Embeds order_manager.AutoOrder. The datetime fields created_at,
triggered_at, executed_at and the callback slot are elided: no verified
trigger computation reads them. execution_price is kept. -/
structure AutoOrder where
  id : String
  token_id : String
  market_question : String
  order_type : OrderType
  side : String
  size : ℚ
  trigger_price : ℚ
  limit_price : Option ℚ
  trailing_percent : Option ℚ
  highest_price : ℚ
  state : OrderState
  execution_price : Option ℚ
  linked_order_id : Option String
deriving DecidableEq, Repr

/-- Embeds OrderManager._check_order: returns the updated order together
with the triggered flag. A trailing stop with trailing_percent = None
would raise a TypeError in the source; that path is unreachable because
set_trailing_stop always stores a percent, and it is mapped to a no-op
here. Orders whose state is not ACTIVE return untriggered and unchanged,
and the LIMIT order types have no trigger branch in the source. -/
def check_order (order : AutoOrder) (current_price : ℚ) : AutoOrder × Bool :=
  if order.state ≠ OrderState.active then (order, false)
  else
    match order.order_type with
    | OrderType.take_profit => (order, current_price ≥ order.trigger_price)
    | OrderType.stop_loss => (order, current_price ≤ order.trigger_price)
    | OrderType.trailing_stop =>
      match order.trailing_percent with
      | none => (order, false)
      | some trailing_percent =>
        let o1 :=
          if current_price > order.highest_price then
            let new_stop := current_price * (1 - trailing_percent)
            if new_stop > order.trigger_price then
              { order with highest_price := current_price, trigger_price := new_stop }
            else
              { order with highest_price := current_price }
          else order
        (o1, current_price ≤ o1.trigger_price)
    | _ => (order, false)

/-- Embeds the AutoOrder built by OrderManager.set_trailing_stop: initial
stop at current_price * (1 - trail_percent), high-water mark at
current_price, state ACTIVE. -/
def set_trailing_stop_order (id token_id market_question : String)
    (trail_percent size current_price : ℚ) (side : String) : AutoOrder :=
  { id := id, token_id := token_id, market_question := market_question,
    order_type := OrderType.trailing_stop, side := side, size := size,
    trigger_price := current_price * (1 - trail_percent), limit_price := none,
    trailing_percent := some trail_percent, highest_price := current_price,
    state := OrderState.active, execution_price := none, linked_order_id := none }

/-- Repeated evaluation of one order against a sequence of midpoint
prices, keeping the updated order each time. -/
def eval_prices (order : AutoOrder) (prices : List ℚ) : AutoOrder :=
  prices.foldl (fun o p => (check_order o p).1) order

theorem check_order_mono (order : AutoOrder) (p : ℚ) :
    order.highest_price ≤ (check_order order p).1.highest_price ∧
    order.trigger_price ≤ (check_order order p).1.trigger_price := by
  rw [check_order]
  split
  · exact ⟨le_refl _, le_refl _⟩
  split
  · exact ⟨le_refl _, le_refl _⟩
  · exact ⟨le_refl _, le_refl _⟩
  · split
    · exact ⟨le_refl _, le_refl _⟩
    simp only
    split
    · rename_i hhigh
      split
      · rename_i hstop
        exact ⟨le_of_lt hhigh, le_of_lt hstop⟩
      · exact ⟨le_of_lt hhigh, le_refl _⟩
    · exact ⟨le_refl _, le_refl _⟩
  · exact ⟨le_refl _, le_refl _⟩

/-- C9: an ACTIVE trailing stop satisfying the ratchet invariant
trigger_price >= highest_price * (1 - trailing_percent) updates, on each
evaluation at price p, highest_price to max(highest_price, p) and
trigger_price to max(trigger_price, max(highest_price, p)*(1 - pct)),
fires exactly when p is at or below the updated trigger, and preserves
the invariant (which set_trailing_stop establishes with equality); and
across any sequence of evaluations neither highest_price nor
trigger_price ever decreases. -/
theorem trailing_stop_ratchet_c9 :
    (∀ (order : AutoOrder) (p trailing_percent : ℚ),
      order.state = OrderState.active →
      order.order_type = OrderType.trailing_stop →
      order.trailing_percent = some trailing_percent →
      order.highest_price * (1 - trailing_percent) ≤ order.trigger_price →
      (check_order order p).1.highest_price = max order.highest_price p ∧
      (check_order order p).1.trigger_price =
        max order.trigger_price (max order.highest_price p * (1 - trailing_percent)) ∧
      ((check_order order p).2 = true ↔ p ≤ (check_order order p).1.trigger_price) ∧
      (check_order order p).1.highest_price * (1 - trailing_percent) ≤
        (check_order order p).1.trigger_price)
    ∧ (∀ (id token_id market_question : String) (trail_percent size current_price : ℚ)
        (side : String),
        (set_trailing_stop_order id token_id market_question trail_percent size
            current_price side).highest_price * (1 - trail_percent) =
        (set_trailing_stop_order id token_id market_question trail_percent size
            current_price side).trigger_price)
    ∧ (∀ (order : AutoOrder) (prices : List ℚ),
        order.highest_price ≤ (eval_prices order prices).highest_price ∧
        order.trigger_price ≤ (eval_prices order prices).trigger_price) := by
  refine ⟨?_, ?_, ?_⟩
  · intro order p trailing_percent hstate htype hpct hinv
    have hcheck : check_order order p =
        (if p > order.highest_price then
            (if p * (1 - trailing_percent) > order.trigger_price then
              { order with highest_price := p,
                           trigger_price := p * (1 - trailing_percent) }
            else { order with highest_price := p })
          else order,
          decide (p ≤ (if p > order.highest_price then
            (if p * (1 - trailing_percent) > order.trigger_price then
              { order with highest_price := p,
                           trigger_price := p * (1 - trailing_percent) }
            else { order with highest_price := p })
          else order).trigger_price)) := by
      rw [check_order, if_neg (by rw [hstate]; simp), htype, hpct]
    by_cases hhigh : p > order.highest_price
    · rw [hcheck]
      by_cases hstop : p * (1 - trailing_percent) > order.trigger_price
      · rw [if_pos hhigh, if_pos hstop]
        refine ⟨(max_eq_right (le_of_lt hhigh)).symm, ?_, by simp [decide_eq_true_iff], ?_⟩
        · show p * (1 - trailing_percent) =
            max order.trigger_price (max order.highest_price p * (1 - trailing_percent))
          rw [max_eq_right (le_of_lt hhigh), max_eq_right (le_of_lt hstop)]
        · show p * (1 - trailing_percent) ≤ p * (1 - trailing_percent)
          exact le_refl _
      · rw [if_pos hhigh, if_neg hstop]
        refine ⟨(max_eq_right (le_of_lt hhigh)).symm, ?_, by simp [decide_eq_true_iff], ?_⟩
        · show order.trigger_price =
            max order.trigger_price (max order.highest_price p * (1 - trailing_percent))
          rw [max_eq_right (le_of_lt hhigh), max_eq_left (le_of_not_lt hstop)]
        · show p * (1 - trailing_percent) ≤ order.trigger_price
          exact le_of_not_lt hstop
    · rw [hcheck, if_neg hhigh]
      refine ⟨(max_eq_left (le_of_not_lt hhigh)).symm, ?_, by simp [decide_eq_true_iff], hinv⟩
      show order.trigger_price =
        max order.trigger_price (max order.highest_price p * (1 - trailing_percent))
      rw [max_eq_left (le_of_not_lt hhigh), max_eq_left hinv]
  · intro id token_id market_question trail_percent size current_price side
    rw [set_trailing_stop_order]
  · intro order prices
    induction prices generalizing order with
    | nil => exact ⟨le_refl _, le_refl _⟩
    | cons p rest ih =>
      have hstep := check_order_mono order p
      have hrest := ih (check_order order p).1
      rw [eval_prices] at hrest ⊢
      simp only [List.foldl_cons]
      exact ⟨le_trans hstep.1 hrest.1, le_trans hstep.2 hrest.2⟩

/-- A concrete active trailing stop used to instantiate C9. -/
def c9Order : AutoOrder :=
  set_trailing_stop_order "AUTO_demo_1" "t9" "q9" (1/10) 50 (1/2) "YES"

/-- Witness for C9: the step characterization applied to a concrete
trailing stop whose price rises to 0.6. -/
theorem trailing_stop_ratchet_c9_witness :
    (check_order c9Order (3/5)).1.highest_price = max c9Order.highest_price (3/5) ∧
    (check_order c9Order (3/5)).1.trigger_price =
      max c9Order.trigger_price (max c9Order.highest_price (3/5) * (1 - 1/10)) := by
  have h := trailing_stop_ratchet_c9.1 c9Order (3/5) (1/10) (by rfl) (by rfl) (by rfl)
    (by norm_num [c9Order, set_trailing_stop_order])
  exact ⟨h.1, h.2.1⟩


/-- Embeds order_tracker.TrackedOrder. The datetime fields created_at,
last_checked and stale_after are elided; staleness is passed to the check
step as a boolean computed from them. -/
structure TrackedOrder where
  order_id : String
  token_id : String
  market_question : String
  side : String
  order_side : String
  size : ℚ
  limit_price : ℚ
  strategy : Option String
  filled_size : ℚ
  avg_fill_price : ℚ
  status : String
deriving DecidableEq, Repr

/-- Embeds TrackedOrder.is_fully_filled: filled_size >= size * 0.999. -/
def TrackedOrder.is_fully_filled (o : TrackedOrder) : Prop :=
  o.size * (999/1000) ≤ o.filled_size

instance (o : TrackedOrder) : Decidable o.is_fully_filled :=
  inferInstanceAs (Decidable (o.size * (999/1000) ≤ o.filled_size))

/-- Embeds the normalized get_order response read by
OrderTracker._check_order: status (already uppercased by the source),
size_matched, the associate_trades list as (size, price) pairs, and the
optional price field. -/
structure ApiOrder where
  status : String
  size_matched : ℚ
  associate_trades : List (ℚ × ℚ)
  price : Option ℚ
deriving DecidableEq, Repr

/-- Callback firings of OrderTracker._check_order. -/
inductive TrackerEvent where
  | fill (order_id : String) (new_fill fill_price : ℚ)
  | cancel (order_id : String)
deriving DecidableEq, Repr

/-- Embeds the size_matched computation of OrderTracker._check_order:
with trades present it is max(api.size_matched, sum of trade sizes),
otherwise the raw api.size_matched. -/
def size_matched_of (a : ApiOrder) : ℚ :=
  if a.associate_trades ≠ [] then
    max a.size_matched ((a.associate_trades.map Prod.fst).sum)
  else a.size_matched

/-- Embeds the fill_price computation of OrderTracker._check_order:
trade-value weighted price when trades carry positive total size, the
limit price when they do not, and the api price (falling back to the
limit price) when no trades are reported. -/
def fill_price_of (a : ApiOrder) (o : TrackedOrder) : ℚ :=
  if a.associate_trades ≠ [] then
    if 0 < (a.associate_trades.map Prod.fst).sum then
      (a.associate_trades.map (fun t => t.1 * t.2)).sum / (a.associate_trades.map Prod.fst).sum
    else o.limit_price
  else a.price.getD o.limit_price

/-- Embeds the new-fill block of OrderTracker._check_order: when
size_matched exceeds the recorded filled_size by more than 0.001, update
filled_size to size_matched, recompute the weighted avg_fill_price (or
take the fill price when there was no positive prior average and fill),
and fire on_fill with the new fill size and price. -/
def tracker_fill_update (a : ApiOrder) (o : TrackedOrder) : TrackedOrder × List TrackerEvent :=
  if 1/1000 < size_matched_of a - o.filled_size then
    ({ o with filled_size := size_matched_of a,
              avg_fill_price :=
                if 0 < o.avg_fill_price ∧ 0 < o.filled_size then
                  (o.filled_size * o.avg_fill_price +
                    (size_matched_of a - o.filled_size) * fill_price_of a o) / size_matched_of a
                else fill_price_of a o },
      [TrackerEvent.fill o.order_id (size_matched_of a - o.filled_size) (fill_price_of a o)])
  else (o, [])

/-- Embeds the non-stale body of OrderTracker._check_order after a
successful get_order: the fill update followed by the terminal-status
transition (MATCHED on a matched or fully filled order, CANCELLED with an
on_cancel firing, otherwise PARTIALLY_FILLED or LIVE). -/
def tracker_poll (a : ApiOrder) (o : TrackedOrder) : TrackedOrder × List TrackerEvent :=
  let step := tracker_fill_update a o
  if a.status = "MATCHED" ∨ a.status = "FILLED" ∨ step.1.is_fully_filled then
    ({ step.1 with status := "MATCHED" }, step.2)
  else if a.status = "CANCELLED" then
    ({ step.1 with status := "CANCELLED" }, step.2 ++ [TrackerEvent.cancel o.order_id])
  else
    ({ step.1 with status := if 0 < step.1.filled_size then "PARTIALLY_FILLED" else "LIVE" },
      step.2)

/-- Embeds OrderTracker._check_order. Inputs stand for the values the
source reads: stale for order.is_stale, cancel_ok for the outcome of the
on-exchange cancel attempt (none models missing auth or an exception),
api for the get_order result (none models an API error or an empty
response, both of which leave the order untouched). -/
def tracker_check_order (stale : Bool) (cancel_ok : Option Bool) (api : Option ApiOrder)
    (o : TrackedOrder) : TrackedOrder × List TrackerEvent :=
  if stale then
    ({ o with status := if cancel_ok.getD false then "CANCELLED" else "EXPIRED" },
      [TrackerEvent.cancel o.order_id])
  else
    match api with
    | none => (o, [])
    | some a => tracker_poll a o

/-- A sequence of polls of one tracked order, keeping the updated order. -/
def tracker_run (o : TrackedOrder) (obs : List (Bool × Option Bool × Option ApiOrder)) :
    TrackedOrder :=
  obs.foldl (fun o i => (tracker_check_order i.1 i.2.1 i.2.2 o).1) o

theorem tracker_fill_update_filled_mono (a : ApiOrder) (o : TrackedOrder) :
    o.filled_size ≤ (tracker_fill_update a o).1.filled_size := by
  rw [tracker_fill_update]
  split
  · rename_i hfill
    show o.filled_size ≤ size_matched_of a
    linarith
  · exact le_refl _

theorem tracker_poll_filled (a : ApiOrder) (o : TrackedOrder) :
    (tracker_poll a o).1.filled_size = (tracker_fill_update a o).1.filled_size := by
  rw [tracker_poll]
  split
  · rfl
  split
  · rfl
  · rfl

theorem tracker_poll_avg (a : ApiOrder) (o : TrackedOrder) :
    (tracker_poll a o).1.avg_fill_price = (tracker_fill_update a o).1.avg_fill_price := by
  rw [tracker_poll]
  split
  · rfl
  split
  · rfl
  · rfl

theorem tracker_poll_fill_events (a : ApiOrder) (o : TrackedOrder)
    (id : String) (nf fp : ℚ) :
    (TrackerEvent.fill id nf fp ∈ (tracker_poll a o).2 ↔
      TrackerEvent.fill id nf fp ∈ (tracker_fill_update a o).2) := by
  rw [tracker_poll]
  split
  · exact Iff.rfl
  split
  · simp
  · exact Iff.rfl

theorem tracker_check_order_filled_mono (stale : Bool) (cancel_ok : Option Bool)
    (api : Option ApiOrder) (o : TrackedOrder) :
    o.filled_size ≤ (tracker_check_order stale cancel_ok api o).1.filled_size := by
  rw [tracker_check_order.eq_def]
  split
  · exact le_refl _
  split
  · exact le_refl _
  · rename_i a
    rw [tracker_poll_filled]
    exact tracker_fill_update_filled_mono a o

/-- C6: per poll of OrderTracker._check_order, filled_size never
decreases, hence it never decreases across any sequence of polls; with a
nonnegative api size_matched the matched amount equals
max(api.size_matched, sum of trade sizes); the on_fill callback fires
exactly when the matched amount exceeds the recorded filled_size by more
than 0.001, in which case filled_size becomes the matched amount and
avg_fill_price becomes the size-weighted average of the old average and
the new fill at its fill price; otherwise filled_size is unchanged and no
on_fill fires. -/
theorem tracker_fill_accounting_c6 :
    (∀ (stale : Bool) (cancel_ok : Option Bool) (api : Option ApiOrder) (o : TrackedOrder),
      o.filled_size ≤ (tracker_check_order stale cancel_ok api o).1.filled_size)
    ∧ (∀ (o : TrackedOrder) (obs : List (Bool × Option Bool × Option ApiOrder)),
      o.filled_size ≤ (tracker_run o obs).filled_size)
    ∧ (∀ (a : ApiOrder), 0 ≤ a.size_matched →
      size_matched_of a = max a.size_matched ((a.associate_trades.map Prod.fst).sum))
    ∧ (∀ (cancel_ok : Option Bool) (a : ApiOrder) (o : TrackedOrder),
      (TrackerEvent.fill o.order_id (size_matched_of a - o.filled_size) (fill_price_of a o) ∈
          (tracker_check_order false cancel_ok (some a) o).2 ↔
        1/1000 < size_matched_of a - o.filled_size)
      ∧ (1/1000 < size_matched_of a - o.filled_size →
          (tracker_check_order false cancel_ok (some a) o).1.filled_size = size_matched_of a ∧
          (0 ≤ o.filled_size → (o.filled_size = 0 ∨ 0 < o.avg_fill_price) →
            (tracker_check_order false cancel_ok (some a) o).1.avg_fill_price =
              (o.filled_size * o.avg_fill_price +
                (size_matched_of a - o.filled_size) * fill_price_of a o) / size_matched_of a))
      ∧ (¬(1/1000 < size_matched_of a - o.filled_size) →
          (tracker_check_order false cancel_ok (some a) o).1.filled_size = o.filled_size ∧
          ∀ nf fp, TrackerEvent.fill o.order_id nf fp ∉
            (tracker_check_order false cancel_ok (some a) o).2)) := by
  have hco : ∀ (cancel_ok : Option Bool) (a : ApiOrder) (o : TrackedOrder),
      tracker_check_order false cancel_ok (some a) o = tracker_poll a o := fun _ _ _ => rfl
  refine ⟨tracker_check_order_filled_mono, ?_, ?_, ?_⟩
  · intro o obs
    induction obs generalizing o with
    | nil => exact le_refl _
    | cons i rest ih =>
      rw [tracker_run]
      simp only [List.foldl_cons]
      exact le_trans (tracker_check_order_filled_mono i.1 i.2.1 i.2.2 o)
        (ih (tracker_check_order i.1 i.2.1 i.2.2 o).1)
  · intro a hnn
    rw [size_matched_of]
    split
    · rfl
    · rename_i hne
      have hempty : a.associate_trades = [] := by
        by_contra hc
        exact hne hc
      rw [hempty]
      simp
      exact hnn
  · intro cancel_ok a o
    rw [hco]
    refine ⟨?_, ?_, ?_⟩
    · rw [tracker_poll_fill_events, tracker_fill_update]
      split
      · rename_i hfill
        exact iff_of_true (List.mem_singleton_self _) hfill
      · rename_i hfill
        exact iff_of_false (List.not_mem_nil _) hfill
    · intro hfill
      constructor
      · rw [tracker_poll_filled, tracker_fill_update, if_pos hfill]
      · intro hnn hcons
        rw [tracker_poll_avg, tracker_fill_update, if_pos hfill]
        show (if 0 < o.avg_fill_price ∧ 0 < o.filled_size then
            (o.filled_size * o.avg_fill_price +
              (size_matched_of a - o.filled_size) * fill_price_of a o) / size_matched_of a
          else fill_price_of a o) = _
        by_cases hcond : 0 < o.avg_fill_price ∧ 0 < o.filled_size
        · rw [if_pos hcond]
        · rw [if_neg hcond]
          have hzero : o.filled_size = 0 := by
            rcases hcons with h0 | hpos
            · exact h0
            · by_contra hne
              exact hcond ⟨hpos, lt_of_le_of_ne hnn (Ne.symm hne)⟩
          have hsm : size_matched_of a ≠ 0 := by
            rw [hzero] at hfill
            intro hc
            rw [hc] at hfill
            norm_num at hfill
          rw [hzero, zero_mul, zero_add, sub_zero, mul_comm, mul_div_assoc, div_self hsm,
            mul_one]
    · intro hfill
      constructor
      · rw [tracker_poll_filled, tracker_fill_update, if_neg hfill]
      · intro nf fp hmem
        rw [tracker_poll_fill_events, tracker_fill_update, if_neg hfill] at hmem
        simp at hmem

/-- A concrete tracked BUY order with no fills yet. -/
def c6Order : TrackedOrder :=
  { order_id := "ord1", token_id := "t6", market_question := "q6", side := "YES",
    order_side := "BUY", size := 100, limit_price := 1/2, strategy := none,
    filled_size := 0, avg_fill_price := 0, status := "LIVE" }

/-- A concrete get_order response reporting a 40-share fill at 0.50. -/
def c6Api : ApiOrder :=
  { status := "LIVE", size_matched := 40, associate_trades := [(40, 1/2)], price := none }

/-- Witness for C6: the fill-accounting conjunct applied to a concrete
order and response, with the hypotheses discharged by evaluation. -/
theorem tracker_fill_accounting_c6_witness :
    (tracker_check_order false none (some c6Api) c6Order).1.filled_size =
      size_matched_of c6Api ∧
    (tracker_check_order false none (some c6Api) c6Order).1.avg_fill_price =
      (c6Order.filled_size * c6Order.avg_fill_price +
        (size_matched_of c6Api - c6Order.filled_size) * fill_price_of c6Api c6Order) /
        size_matched_of c6Api := by
  have hfill : 1/1000 < size_matched_of c6Api - c6Order.filled_size := by
    norm_num [size_matched_of, c6Api, c6Order]
  have h := (tracker_fill_accounting_c6.2.2.2 none c6Api c6Order).2.1 hfill
  exact ⟨h.1, h.2 (by norm_num [c6Order]) (Or.inl (by norm_num [c6Order]))⟩

/-- Python runtime errors relevant to the embedded constructor and
method-call semantics. -/
inductive PyError where
  | attributeError (name : String)
  | typeError (keyword : String)
deriving DecidableEq, Repr

/-- The parameter names accepted by OrderTracker.__init__ in
order_tracker.py besides self; the signature has no **kwargs. -/
def order_tracker_init_params : List String :=
  ["on_fill", "on_cancel", "poll_interval", "stale_timeout_seconds"]

/-- The keyword argument names OrderManager.__init__ passes in its
OrderTracker call in order_manager.py. -/
def order_manager_tracker_kwargs : List String :=
  ["on_fill", "on_cancel", "poll_interval", "stale_timeout_minutes"]

/-- Python keyword binding: calling a function whose signature has no
**kwargs with a keyword argument outside its parameter list raises
TypeError naming that keyword. -/
def bind_kwargs (params kwargs : List String) : Except PyError Unit :=
  match kwargs.find? (fun k => !params.contains k) with
  | some k => Except.error (PyError.typeError k)
  | none => Except.ok ()

/-- Embeds OrderManager.__init__ for any trader argument. The body first
assigns self.trader = trader or Trader() (both alternatives construct
without error) and then calls OrderTracker with the four keyword
arguments above; a TypeError there aborts construction, and the
remaining field initialization is unreachable on error. -/
def order_manager_init (explicit_trader : Bool) : Except PyError Unit := do
  let _ ← bind_kwargs order_tracker_init_params order_manager_tracker_kwargs
  pure ()

/-- Embeds AutoTrader.__init__, which constructs OrderManager() with no
trader argument and propagates any error from it. -/
def auto_trader_init : Except PyError Unit := do
  let _ ← order_manager_init false
  pure ()

/-- C2: every construction of OrderManager, with or without an explicit
trader argument, raises TypeError on the keyword stale_timeout_minutes,
which OrderTracker.__init__ does not accept (it takes
stale_timeout_seconds); AutoTrader.__init__ constructs an OrderManager
and therefore raises the same TypeError. -/
theorem order_manager_init_type_error_c2 :
    (∀ explicit_trader : Bool,
      order_manager_init explicit_trader =
        Except.error (PyError.typeError "stale_timeout_minutes")) ∧
    auto_trader_init = Except.error (PyError.typeError "stale_timeout_minutes") := by
  exact ⟨fun _ => rfl, rfl⟩

/-- A post_order call made through the authenticated client, as recorded
on the exchange side. -/
structure PostedOrder where
  token_id : String
  price : ℚ
  size : ℚ
  side : String
deriving DecidableEq, Repr

/-- Embeds trader.OrderResult restricted to the fields the verified
paths read. -/
structure OrderResult where
  success : Bool
  order_id : Option String
  error : Option String
deriving DecidableEq, Repr

/-- The environment Trader.buy reads: auth readiness, configured limits,
current portfolio exposure, whether the exchange accepts the order, and
the order id it assigns. -/
structure TraderEnv where
  is_ready : Bool
  max_trade_size : ℚ
  max_total_exposure : ℚ
  current_exposure : ℚ
  post_success : Bool
  next_order_id : String
deriving DecidableEq, Repr

/-- Embeds Trader.buy: readiness check, _validate_trade (positive size,
price strictly inside (0,1), trade value within max_trade_size, exposure
headroom), then create_order and post_order. The post_order HTTP call is
recorded in the posted log whether or not the exchange reports success.
No intent fingerprint is computed anywhere on this path. -/
def trader_buy (env : TraderEnv) (posted : List PostedOrder) (token_id : String)
    (price size : ℚ) : OrderResult × List PostedOrder :=
  if ¬env.is_ready then
    ({ success := false, order_id := none,
       error := some "Trader not initialized - check credentials" }, posted)
  else if size ≤ 0 then
    ({ success := false, order_id := none, error := some "Size must be positive" }, posted)
  else if price ≤ 0 ∨ 1 ≤ price then
    ({ success := false, order_id := none,
       error := some "Price must be between 0 and 1" }, posted)
  else if env.max_trade_size < size * price then
    ({ success := false, order_id := none, error := some "Trade value exceeds max" }, posted)
  else if env.max_total_exposure < env.current_exposure + size * price then
    ({ success := false, order_id := none, error := some "Would exceed max exposure" }, posted)
  else
    let posted2 := posted ++ [{ token_id := token_id, price := price, size := size,
                                side := "BUY" }]
    if env.post_success then
      ({ success := true, order_id := some env.next_order_id, error := none }, posted2)
    else
      ({ success := false, order_id := none, error := some "Unknown error" }, posted2)

/-- State visible to OrderManager.buy: the order-intent table, the ids
registered with the OrderTracker, and the exchange-side post log. -/
structure OMBuyState where
  intents : List String
  tracked : List String
  posted : List PostedOrder
deriving DecidableEq, Repr

/-- Embeds OrderManager.buy: call self.trader.buy and, when it succeeds
with a nonempty order id, register the order with the tracker. The source
neither reads nor writes the order_intents table on this path. -/
def order_manager_buy (env : TraderEnv) (st : OMBuyState) (token_id : String)
    (size price : ℚ) : OrderResult × OMBuyState :=
  let r := trader_buy env st.posted token_id price size
  if r.1.success ∧ r.1.order_id.getD "" ≠ "" then
    (r.1, { st with posted := r.2, tracked := st.tracked ++ [r.1.order_id.getD ""] })
  else
    (r.1, { st with posted := r.2 })

/-- The method names defined by the class OrderManager in
order_manager.py; no instance attribute named _make_intent_id is ever
assigned either. The name _make_intent_id is absent although
OrderManager.sell calls self._make_intent_id as its first statement. -/
def order_manager_attrs : List String :=
  ["__init__", "_on_order_fill", "_on_order_cancel", "_generate_order_id", "buy",
   "buy_with_tp_sl", "market_buy_with_tp_sl", "sell", "market_sell", "set_take_profit",
   "set_stop_loss", "set_trailing_stop", "set_oco", "cancel_order", "cancel_all_orders",
   "get_active_orders", "_get_current_price", "_check_order", "_execute_order",
   "_monitor_loop", "start_monitoring", "stop_monitoring", "print_status"]

/-- Embeds Python attribute lookup on an OrderManager instance. -/
def py_getattr (attrs : List String) (name : String) : Except PyError Unit :=
  if name ∈ attrs then Except.ok () else Except.error (PyError.attributeError name)

/-- Embeds OrderManager.sell up to its first statement: the source
immediately evaluates self._make_intent_id(...), so the attribute lookup
runs before any idempotency check or post_order call; it fails because
no such attribute exists, and the rest of the body (unreachable, and
with no callee source to embed) is elided. The arguments are accepted
but never reach any further computation. -/
def order_manager_sell (token_id : String) (size price : ℚ) : Except PyError Unit := do
  let _ ← py_getattr order_manager_attrs "_make_intent_id"
  pure ()

/-- The BUY order posted by the C1 evaluation below. -/
def c1Posted : PostedOrder := { token_id := "tok", price := 1/2, size := 10, side := "BUY" }

/-- Environment for the C1 evaluation: authenticated, generous limits,
an accepting exchange. -/
def c1Env : TraderEnv :=
  { is_ready := true, max_trade_size := 100, max_total_exposure := 1000,
    current_exposure := 0, post_success := true, next_order_id := "OID1" }

/-- Initial OrderManager state for the C1 evaluation: empty intent
table, nothing tracked, nothing posted. -/
def c1State0 : OMBuyState := { intents := [], tracked := [], posted := [] }

/-- C1 evaluation at the failing input: submitting the identical BUY
intent twice through OrderManager.buy issues two post_order calls and
two accepted submissions, and the intent table stays empty because the
BUY path computes no fingerprint; OrderManager.sell raises
AttributeError on the undefined _make_intent_id before any idempotency
check, contradicting the claimed duplicate-intent guard. -/
theorem duplicate_intent_not_enforced_c1 :
    (order_manager_buy c1Env c1State0 "tok" 10 (1/2)).1.success = true ∧
    (order_manager_buy c1Env
        (order_manager_buy c1Env c1State0 "tok" 10 (1/2)).2 "tok" 10 (1/2)).1.success = true ∧
    (order_manager_buy c1Env
        (order_manager_buy c1Env c1State0 "tok" 10 (1/2)).2 "tok" 10 (1/2)).2.posted.length
      = 2 ∧
    (order_manager_buy c1Env
        (order_manager_buy c1Env c1State0 "tok" 10 (1/2)).2 "tok" 10 (1/2)).2.intents = [] ∧
    order_manager_sell "tok" 10 (1/2) =
      Except.error (PyError.attributeError "_make_intent_id") := by
  have hbuy : ∀ st : OMBuyState, order_manager_buy c1Env st "tok" 10 (1/2) =
      ({ success := true, order_id := some "OID1", error := none },
        { st with posted := st.posted ++ [c1Posted], tracked := st.tracked ++ ["OID1"] }) := by
    intro st
    norm_num [order_manager_buy, trader_buy, c1Env, c1Posted]
    decide
  rw [hbuy c1State0, hbuy]
  refine ⟨rfl, rfl, by norm_num [c1State0], by norm_num [c1State0], rfl⟩

/-- Embeds order_manager.Position (the per-token record OrderManager
keeps for TP/SL bookkeeping). -/
structure Position where
  token_id : String
  market_question : String
  side : String
  size : ℚ
  entry_price : ℚ
  take_profit_price : Option ℚ
  stop_loss_price : Option ℚ
  trailing_stop_percent : Option ℚ
deriving DecidableEq, Repr

/-- The OrderManager state read and written by the trigger-registration
methods: the orders dict, the positions dict, and the id counter. -/
structure OMState where
  orders : List (String × AutoOrder)
  positions : List (String × Position)
  counter : Nat
deriving DecidableEq, Repr

/-- Embeds OrderManager._generate_order_id: increments the counter and
returns AUTO_(timestamp)_(counter); the formatted datetime is passed in
as ts. -/
def generate_order_id (ts : String) (counter : Nat) : String × Nat :=
  ("AUTO_" ++ ts ++ "_" ++ toString (counter + 1), counter + 1)

/-- Python dict assignment d[k] = v on an association list. -/
def dict_set {α : Type} (l : List (String × α)) (k : String) (v : α) : List (String × α) :=
  if l.any (fun e => e.1 == k) then
    l.map (fun e => if e.1 == k then (k, v) else e)
  else l ++ [(k, v)]

/-- Python dict read d.get(k) on an association list. -/
def dict_get {α : Type} (l : List (String × α)) (k : String) : Option α :=
  (l.find? (fun e => e.1 == k)).map Prod.snd

/-- Embeds OrderManager.set_take_profit: a fresh ACTIVE TAKE_PROFIT
AutoOrder with no link, stored under a generated id. -/
def set_take_profit (st : OMState) (ts token_id : String) (price size : ℚ)
    (market_question side : String) : String × OMState :=
  let idc := generate_order_id ts st.counter
  let order : AutoOrder :=
    { id := idc.1, token_id := token_id, market_question := market_question,
      order_type := OrderType.take_profit, side := side, size := size,
      trigger_price := price, limit_price := none, trailing_percent := none,
      highest_price := 0, state := OrderState.active, execution_price := none,
      linked_order_id := none }
  (idc.1, { st with orders := dict_set st.orders idc.1 order, counter := idc.2 })

/-- Embeds OrderManager.set_stop_loss: a fresh ACTIVE STOP_LOSS
AutoOrder with no link, stored under a generated id. -/
def set_stop_loss (st : OMState) (ts token_id : String) (price size : ℚ)
    (market_question side : String) : String × OMState :=
  let idc := generate_order_id ts st.counter
  let order : AutoOrder :=
    { id := idc.1, token_id := token_id, market_question := market_question,
      order_type := OrderType.stop_loss, side := side, size := size,
      trigger_price := price, limit_price := none, trailing_percent := none,
      highest_price := 0, state := OrderState.active, execution_price := none,
      linked_order_id := none }
  (idc.1, { st with orders := dict_set st.orders idc.1 order, counter := idc.2 })

/-- Embeds OrderManager.set_trailing_stop: stores the trailing order
built by set_trailing_stop_order under a generated id. -/
def set_trailing_stop (st : OMState) (ts token_id : String)
    (trail_percent size current_price : ℚ) (market_question side : String) :
    String × OMState :=
  let idc := generate_order_id ts st.counter
  let order := set_trailing_stop_order idc.1 token_id market_question trail_percent size
    current_price side
  (idc.1, { st with orders := dict_set st.orders idc.1 order, counter := idc.2 })

/-- Embeds OrderManager.set_oco: create the TP and the SL, then link the
two stored orders to each other by two sequential assignments. -/
def set_oco (st : OMState) (ts token_id : String)
    (size take_profit_price stop_loss_price : ℚ) (market_question side : String) :
    (String × String) × OMState :=
  let r1 := set_take_profit st ts token_id take_profit_price size market_question side
  let tp_id := r1.1
  let r2 := set_stop_loss r1.2 ts token_id stop_loss_price size market_question side
  let sl_id := r2.1
  let orders3 := r2.2.orders.map (fun e =>
    if e.1 == tp_id then (e.1, { e.2 with linked_order_id := some sl_id }) else e)
  let orders4 := orders3.map (fun e =>
    if e.1 == sl_id then (e.1, { e.2 with linked_order_id := some tp_id }) else e)
  ((tp_id, sl_id), { r2.2 with orders := orders4 })

/-- Python truthiness of an optional float: None and 0.0 are falsy. -/
def truthy (x : Option ℚ) : Bool :=
  match x with
  | none => false
  | some v => v != 0

/-- Result record of buy_with_tp_sl; the nested buy_result is reduced to
its success flag. -/
structure BuyTpSlResult where
  success : Bool
  take_profit_id : Option String
  stop_loss_id : Option String
  trailing_stop_id : Option String
deriving DecidableEq, Repr

/-- Embeds OrderManager.buy_with_tp_sl. The inner self.buy is the
embedded order_manager_buy, so Trader.buy validation (positive size,
price strictly inside (0,1), trade-value and exposure limits) and the
exchange response decide the success flag; on failure the method
returns immediately with the trigger ids empty. Python truthiness means
a missing or zero take_profit, stop_loss or trailing percent skips that
trigger. The source registers the three triggers independently and
performs no linking between the created TP and SL; it finally copies
the three arguments onto the tracked position for the token when one
exists. -/
def buy_with_tp_sl (env : TraderEnv) (bst : OMBuyState) (st : OMState)
    (ts token_id market_question : String) (size entry_price : ℚ)
    (take_profit stop_loss trailing_stop_percent : Option ℚ) (side : String) :
    BuyTpSlResult × OMBuyState × OMState :=
  let rbuy := order_manager_buy env bst token_id size entry_price
  if ¬rbuy.1.success then
    ({ success := false, take_profit_id := none, stop_loss_id := none,
       trailing_stop_id := none }, rbuy.2, st)
  else
    let s1 :=
      if truthy take_profit then
        let r := set_take_profit st ts token_id (take_profit.getD 0) size market_question side
        (some r.1, r.2)
      else (none, st)
    let s2 :=
      if truthy stop_loss then
        let r := set_stop_loss s1.2 ts token_id (stop_loss.getD 0) size market_question side
        (some r.1, r.2)
      else (none, s1.2)
    let s3 :=
      if truthy trailing_stop_percent then
        let r := set_trailing_stop s2.2 ts token_id (trailing_stop_percent.getD 0) size
          entry_price market_question side
        (some r.1, r.2)
      else (none, s2.2)
    let positions4 := s3.2.positions.map (fun e =>
      if e.1 == token_id then
        (e.1, { e.2 with take_profit_price := take_profit, stop_loss_price := stop_loss,
                         trailing_stop_percent := trailing_stop_percent })
      else e)
    ({ success := true, take_profit_id := s1.1, stop_loss_id := s2.1,
       trailing_stop_id := s3.1 }, rbuy.2, { s3.2 with positions := positions4 })

/-- The empty OrderManager state. -/
def omEmpty : OMState := { orders := [], positions := [], counter := 0 }

/-- Environment for the C5 run: authenticated, generous limits, an
accepting exchange. -/
def c5Env : TraderEnv :=
  { is_ready := true, max_trade_size := 100, max_total_exposure := 1000,
    current_exposure := 0, post_success := true, next_order_id := "OID5" }

/-- Initial buy-path state for the C5 run. -/
def c5Bst : OMBuyState := { intents := [], tracked := [], posted := [] }

/-- Concrete buy_with_tp_sl run: a 10-share buy at the valid limit
price 0.50 (which passes Trader.buy validation and the exchange
accepts), with both a take profit price (7) and a stop loss price (3)
supplied. -/
def c5Run : BuyTpSlResult × OMBuyState × OMState :=
  buy_with_tp_sl c5Env c5Bst omEmpty "T" "tk" "q5" 10 (1/2) (some 7) (some 3) none "YES"

/-- C5 counterexample: after buy_with_tp_sl with a successful buy and
both a TP and an SL price, the two created AutoOrders both have
linked_order_id = None; they are not an OCO pair, so the claimed
symmetric linking does not happen. -/
theorem buy_with_tp_sl_not_linked_c5_counterexample :
    c5Run.1.success = true ∧
    c5Run.1.take_profit_id = some "AUTO_T_1" ∧
    c5Run.1.stop_loss_id = some "AUTO_T_2" ∧
    (dict_get c5Run.2.2.orders "AUTO_T_1").map (fun o => o.linked_order_id) = some none ∧
    (dict_get c5Run.2.2.orders "AUTO_T_2").map (fun o => o.linked_order_id) = some none := by
  have hbuy : order_manager_buy c5Env c5Bst "tk" 10 (1/2) =
      ({ success := true, order_id := some "OID5", error := none },
        { intents := [], tracked := ["OID5"],
          posted := [{ token_id := "tk", price := 1/2, size := 10, side := "BUY" }] }) := by
    norm_num [order_manager_buy, trader_buy, c5Env, c5Bst]
    decide
  have hrun : c5Run =
      ({ success := true, take_profit_id := some "AUTO_T_1",
         stop_loss_id := some "AUTO_T_2", trailing_stop_id := none },
        { intents := [], tracked := ["OID5"],
          posted := [{ token_id := "tk", price := 1/2, size := 10, side := "BUY" }] },
        (set_stop_loss (set_take_profit omEmpty "T" "tk" 7 10 "q5" "YES").2 "T" "tk" 3 10
          "q5" "YES").2) := by
    rw [show c5Run = buy_with_tp_sl c5Env c5Bst omEmpty "T" "tk" "q5" 10 (1/2) (some 7)
      (some 3) none "YES" from rfl]
    rw [buy_with_tp_sl, hbuy]
    dsimp only
    rw [if_neg (by simp)]
    rfl
  rw [hrun]
  exact ⟨rfl, rfl, rfl, rfl, rfl⟩

theorem dict_set_unlinked {l : List (String × AutoOrder)} {k : String} {v : AutoOrder}
    (hl : ∀ e ∈ l, e.2.linked_order_id = none) (hv : v.linked_order_id = none) :
    ∀ e ∈ dict_set l k v, e.2.linked_order_id = none := by
  intro e he
  rw [dict_set] at he
  split at he
  · rw [List.mem_map] at he
    obtain ⟨e0, he0, heq⟩ := he
    by_cases hk : e0.1 == k
    · rw [if_pos hk] at heq
      rw [← heq]
      exact hv
    · rw [if_neg hk] at heq
      rw [← heq]
      exact hl e0 he0
  · rw [List.mem_append] at he
    rcases he with h0 | h1
    · exact hl e h0
    · rw [List.mem_singleton] at h1
      rw [h1]
      exact hv

/-- C5 amended: buy_with_tp_sl creates its TP and SL unlinked - it
preserves the invariant that every stored AutoOrder has
linked_order_id = None - while symmetric OCO linking happens only in
set_oco, which links the two orders it creates to each other. -/
theorem buy_with_tp_sl_not_linked_c5 :
    (∀ (env : TraderEnv) (bst : OMBuyState) (st : OMState)
        (ts token_id market_question : String) (size entry_price : ℚ)
        (take_profit stop_loss trailing_stop_percent : Option ℚ) (side : String),
      (∀ e ∈ st.orders, e.2.linked_order_id = none) →
      ∀ e ∈ (buy_with_tp_sl env bst st ts token_id market_question size entry_price
          take_profit stop_loss trailing_stop_percent side).2.2.orders,
        e.2.linked_order_id = none)
    ∧ ((dict_get (set_oco omEmpty "T" "tk" 100 7 3 "q5" "YES").2.orders
          "AUTO_T_1").map (fun o => o.linked_order_id) = some (some "AUTO_T_2") ∧
       (dict_get (set_oco omEmpty "T" "tk" 100 7 3 "q5" "YES").2.orders
          "AUTO_T_2").map (fun o => o.linked_order_id) = some (some "AUTO_T_1")) := by
  constructor
  · intro env bst st ts token_id market_question size entry_price take_profit stop_loss
      trailing_stop_percent side hst
    rw [buy_with_tp_sl]
    split
    · exact hst
    dsimp only
    by_cases htp : truthy take_profit = true
    · rw [if_pos htp]
      by_cases hsl : truthy stop_loss = true
      · rw [if_pos hsl]
        by_cases hts : truthy trailing_stop_percent = true
        · rw [if_pos hts]
          exact dict_set_unlinked (dict_set_unlinked (dict_set_unlinked hst rfl) rfl) rfl
        · rw [if_neg hts]
          exact dict_set_unlinked (dict_set_unlinked hst rfl) rfl
      · rw [if_neg hsl]
        by_cases hts : truthy trailing_stop_percent = true
        · rw [if_pos hts]
          exact dict_set_unlinked (dict_set_unlinked hst rfl) rfl
        · rw [if_neg hts]
          exact dict_set_unlinked hst rfl
    · rw [if_neg htp]
      by_cases hsl : truthy stop_loss = true
      · rw [if_pos hsl]
        by_cases hts : truthy trailing_stop_percent = true
        · rw [if_pos hts]
          exact dict_set_unlinked (dict_set_unlinked hst rfl) rfl
        · rw [if_neg hts]
          exact dict_set_unlinked hst rfl
      · rw [if_neg hsl]
        by_cases hts : truthy trailing_stop_percent = true
        · rw [if_pos hts]
          exact dict_set_unlinked hst rfl
        · rw [if_neg hts]
          exact hst
  · exact ⟨rfl, rfl⟩

/-- Witness for C5 amended: the preservation statement applied at the
concrete run c5Run, whose result state is evaluated. -/
theorem buy_with_tp_sl_not_linked_c5_witness :
    c5Run.2.2.orders.all (fun e => e.2.linked_order_id == none) = true := by
  have h := buy_with_tp_sl_not_linked_c5.1 c5Env c5Bst omEmpty "T" "tk" "q5" 10 (1/2)
    (some 7) (some 3) none "YES" (by intro e he; simp [omEmpty] at he)
  rw [List.all_eq_true]
  intro e he
  rw [h e he]
  rfl

/-- Embeds auto_trader.AutoBet. The nested Market is flattened to the
fields check_positions reads (its id and the two token ids); entry_time
and the current clock are rational hours. -/
structure AutoBet where
  id : String
  market_id : String
  token_id_yes : String
  token_id_no : String
  side : String
  size : ℚ
  entry_price : ℚ
  entry_time : ℚ
  strategy : String
  status : String
deriving DecidableEq, Repr

/-- The AutoTrader state read and written by check_positions, together
with a log of every sell order submitted through the exchange gateway so
that the absence of submissions is expressible. -/
structure ATState where
  active_bets : List (String × AutoBet)
  bet_history : List AutoBet
  total_pnl : ℚ
  submitted_sells : List PostedOrder
deriving DecidableEq, Repr

/-- Embeds odds_tracker.PricePoint, the dataclass OddsTracker.fetch_price
returns (the timestamp field is elided). It is a plain dataclass and
defines no arithmetic operators. -/
structure PricePoint where
  price_yes : ℚ
  price_no : ℚ
  best_bid : Option ℚ
  best_ask : Option ℚ
deriving DecidableEq, Repr

/-- Embeds the Python expression current_price - bet.entry_price in
AutoTrader.check_positions, where current_price is the PricePoint from
fetch_price: PricePoint defines no subtraction against a float, so the
expression raises TypeError for every input, embedded as none. -/
def pricePoint_sub (current_price : PricePoint) (entry_price : ℚ) : Option ℚ := none

/-- Embeds AutoTrader._close_position: accumulate the mark-to-market
pnl, flag the bet won or lost, append it to the history and delete it
from active_bets; it submits no order of any kind. No reachable path of
check_positions invokes it (see check_positions_step below); it is
embedded for reference. -/
def close_position (st : ATState) (bet : AutoBet) (price : ℚ) : ATState :=
  let pnl := (price - bet.entry_price) * (bet.size / bet.entry_price)
  let bet2 := { bet with status := if 0 < pnl then "won" else "lost" }
  { st with total_pnl := st.total_pnl + pnl,
            bet_history := st.bet_history ++ [bet2],
            active_bets := st.active_bets.filter (fun e => e.1 ≠ bet.id) }

/-- Embeds the loop body of AutoTrader.check_positions for one bet:
fetch the PricePoint of the bet side token (a missing price skips the
bet); the next statement computes pnl_pct from
current_price - bet.entry_price, which always raises TypeError
(pricePoint_sub), and the per-bet except swallows the exception,
skipping the bet. The hold-time check and the _close_position call that
follow in the source are therefore unreachable and no behavior is
embedded for them (the vacuous some branch also skips). -/
def check_positions_step (now max_hold_hours : ℚ)
    (price_of : String → Option PricePoint) (acc : ATState) (e : String × AutoBet) :
    ATState :=
  let bet := e.2
  let token_id := if bet.side = "YES" then bet.token_id_yes else bet.token_id_no
  match price_of token_id with
  | none => acc
  | some current_price =>
    match pricePoint_sub current_price bet.entry_price with
    | none => acc
    | some _ => acc

/-- Embeds AutoTrader.check_positions: fold the per-bet body over a
snapshot of active_bets. now is the current clock in hours and price_of
stands for OddsTracker.fetch_price. -/
def check_positions (st : ATState) (now max_hold_hours : ℚ)
    (price_of : String → Option PricePoint) : ATState :=
  st.active_bets.foldl (check_positions_step now max_hold_hours price_of) st

/-- A concrete expired bet: opened at hour 0, held 50 hours against a
48 hour limit. -/
def c3Bet : AutoBet :=
  { id := "bet1", market_id := "m3", token_id_yes := "ty3", token_id_no := "tn3",
    side := "YES", size := 10, entry_price := 1/2, entry_time := 0, strategy := "momentum",
    status := "open" }

/-- Initial state holding only c3Bet, with nothing submitted. -/
def c3State : ATState :=
  { active_bets := [("bet1", c3Bet)], bet_history := [], total_pnl := 0,
    submitted_sells := [] }

/-- The price oracle for the C3 run: a 0.60 price point for every
token. -/
def c3Price : String → Option PricePoint :=
  fun _ => some { price_yes := 3/5, price_no := 2/5, best_bid := none, best_ask := none }

/-- C3 counterexample: monitoring a bet held 50 hours against a 48 hour
limit, with a price point available, submits no market-sell through the
gateway AND leaves the bet in active_bets with nothing recorded:
neither conjunct of the claim happens, because the pnl computation
raises TypeError on the PricePoint before the hold-time check, and the
per-bet except swallows it. -/
theorem timeout_close_no_sell_c3_counterexample :
    c3Price "ty3" = some { price_yes := 3/5, price_no := 2/5, best_bid := none,
                           best_ask := none } ∧
    (check_positions c3State 50 48 c3Price).submitted_sells = [] ∧
    ("bet1", c3Bet) ∈ (check_positions c3State 50 48 c3Price).active_bets ∧
    (check_positions c3State 50 48 c3Price).bet_history = [] := by
  have hid : check_positions c3State 50 48 c3Price = c3State := rfl
  refine ⟨rfl, ?_, ?_, ?_⟩
  · rw [hid]
    rfl
  · rw [hid]
    show ("bet1", c3Bet) ∈ [("bet1", c3Bet)]
    exact List.mem_singleton.mpr rfl
  · rw [hid]
    rfl

/-- C3 amended: the position-monitoring step is inert. It never submits
any order through the exchange gateway, and it never closes, marks or
removes any bet either: fetch_price returns a PricePoint dataclass, the
pnl computation on it raises TypeError which the per-bet handler
swallows before the hold-time check runs, so check_positions returns
its state unchanged and the force-close path is dead code. -/
theorem timeout_close_local_only_c3 :
    ∀ (st : ATState) (now max_hold_hours : ℚ)
      (price_of : String → Option PricePoint),
      check_positions st now max_hold_hours price_of = st := by
  intro st now max_hold_hours price_of
  rw [check_positions]
  have hstep : ∀ (acc : ATState) (e : String × AutoBet),
      check_positions_step now max_hold_hours price_of acc e = acc := by
    intro acc e
    rw [check_positions_step.eq_def]
    dsimp only
    cases hp : price_of (if e.2.side = "YES" then e.2.token_id_yes else e.2.token_id_no) with
    | none => rfl
    | some p => rfl
  have hfold : ∀ (l : List (String × AutoBet)) (acc : ATState),
      l.foldl (check_positions_step now max_hold_hours price_of) acc = acc := by
    intro l
    induction l with
    | nil => intro acc; rfl
    | cons e rest ih =>
      intro acc
      rw [List.foldl_cons, hstep]
      exact ih acc
  exact hfold st.active_bets st

/-- Embeds the normalized orderbook read by
AutoTrader._get_orderbook_spread_bps: price levels per side. The source
extracts a float price from each level and skips unparsable levels;
levels arrive here already as rationals. -/
structure OrderBook where
  bids : List ℚ
  asks : List ℚ
deriving DecidableEq, Repr

/-- Embeds the _best helper of _get_orderbook_spread_bps: fold max (for
bids) or min (for asks) over the levels, None when empty. -/
def best_level (levels : List ℚ) (want_max : Bool) : Option ℚ :=
  levels.foldl (fun best p =>
    match best with
    | none => some p
    | some b => some (if want_max then max b p else min b p)) none

/-- Embeds AutoTrader._get_orderbook_spread_bps: None for a missing
book, an empty side, a nonpositive best, or an inverted book (ask below
bid); otherwise (ask - bid) / mid * 10000 with mid = (bid + ask) / 2. -/
def get_orderbook_spread_bps (book : Option OrderBook) : Option ℚ :=
  match book with
  | none => none
  | some b =>
    if b.bids = [] ∨ b.asks = [] then none
    else
      match best_level b.bids true, best_level b.asks false with
      | some bid, some ask =>
        if bid ≤ 0 ∨ ask ≤ 0 ∨ ask < bid then none
        else some ((ask - bid) / ((bid + ask) / 2) * 10000)
      | _, _ => none

/-- Embeds the spread-guard test in AutoTrader.run_once: the entry is
skipped exactly when spread_bps is not None and exceeds max_spread_bps
(source default 150). -/
def spread_guard_skips (book : Option OrderBook) (max_spread_bps : ℚ) : Bool :=
  match get_orderbook_spread_bps book with
  | some s => max_spread_bps < s
  | none => false

/-- C4 counterexample: a missing orderbook, a one-sided book and an
inverted book all yield spread_bps = None, and the run_once guard does
NOT skip the entry in any of those cases, while the claim says such
entries are skipped. -/
theorem spread_guard_gaps_c4_counterexample :
    spread_guard_skips none 150 = false ∧
    spread_guard_skips (some { bids := [], asks := [1/2] }) 150 = false ∧
    spread_guard_skips (some { bids := [3/5], asks := [1/2] }) 150 = false ∧
    get_orderbook_spread_bps (some { bids := [3/5], asks := [1/2] }) = none := by
  have hinv : get_orderbook_spread_bps (some { bids := [3/5], asks := [1/2] }) = none := by
    rw [get_orderbook_spread_bps]
    rw [if_neg (by simp)]
    rw [show best_level ({ bids := [3/5], asks := [1/2] } : OrderBook).bids true =
        some (3/5) from rfl,
      show best_level ({ bids := [3/5], asks := [1/2] } : OrderBook).asks false =
        some (1/2) from rfl]
    dsimp only
    rw [if_pos (Or.inr (Or.inr (by norm_num : (1:ℚ)/2 < 3/5)))]
  refine ⟨rfl, ?_, ?_, hinv⟩
  · rw [spread_guard_skips, get_orderbook_spread_bps]
    rw [if_pos (Or.inl rfl)]
  · rw [spread_guard_skips, hinv]

theorem best_level_ne_nil {l : List ℚ} {w : Bool} {x : ℚ} (h : best_level l w = some x) :
    l ≠ [] := by
  intro hl
  rw [hl] at h
  exact absurd h (by rw [best_level]; simp)

/-- C4 amended: the run_once spread guard skips an entry exactly when a
spread was computed and exceeds max_spread_bps; a well-formed book
(nonempty sides, positive bests, ask at or above bid) yields the spread
(ask - bid) / ((bid + ask) / 2) * 10000; and a missing book, an empty
side, or an inverted book yield None - which the guard does NOT skip. -/
theorem spread_guard_characterization_c4 :
    (∀ (book : Option OrderBook) (max_spread_bps : ℚ),
      spread_guard_skips book max_spread_bps = true ↔
        ∃ s, get_orderbook_spread_bps book = some s ∧ max_spread_bps < s)
    ∧ (∀ (b : OrderBook) (bid ask : ℚ),
        best_level b.bids true = some bid → best_level b.asks false = some ask →
        0 < bid → 0 < ask → bid ≤ ask →
        get_orderbook_spread_bps (some b) =
          some ((ask - bid) / ((bid + ask) / 2) * 10000))
    ∧ get_orderbook_spread_bps none = none
    ∧ (∀ b : OrderBook, b.bids = [] ∨ b.asks = [] →
        get_orderbook_spread_bps (some b) = none)
    ∧ (∀ (b : OrderBook) (bid ask : ℚ),
        best_level b.bids true = some bid → best_level b.asks false = some ask →
        ask < bid → get_orderbook_spread_bps (some b) = none) := by
  refine ⟨?_, ?_, rfl, ?_, ?_⟩
  · intro book max_spread_bps
    rw [spread_guard_skips]
    match get_orderbook_spread_bps book with
    | none =>
      constructor
      · intro hc
        exact absurd hc (by simp)
      · rintro ⟨s, hs, _⟩
        exact absurd hs (by simp)
    | some s =>
      constructor
      · intro hc
        exact ⟨s, rfl, of_decide_eq_true hc⟩
      · rintro ⟨s2, hs2, hlt⟩
        rw [Option.some_inj] at hs2
        rw [hs2]
        exact decide_eq_true hlt
  · intro b bid ask hbid hask hbidpos haskpos hord
    rw [get_orderbook_spread_bps]
    rw [if_neg (by
      rintro (h1 | h2)
      · exact best_level_ne_nil hbid h1
      · exact best_level_ne_nil hask h2)]
    rw [hbid, hask]
    dsimp only
    rw [if_neg (by
      rintro (h1 | h2 | h3)
      · linarith
      · linarith
      · linarith)]
  · intro b hempty
    rw [get_orderbook_spread_bps]
    rw [if_pos hempty]
  · intro b bid ask hbid hask hinv
    rw [get_orderbook_spread_bps]
    rw [if_neg (by
      rintro (h1 | h2)
      · exact best_level_ne_nil hbid h1
      · exact best_level_ne_nil hask h2)]
    rw [hbid, hask]
    dsimp only
    rw [if_pos (Or.inr (Or.inr hinv))]

/-- Witness for C4 amended: the well-formed-book conjunct applied at a
concrete book with best bid 0.50 and best ask 0.52, and the empty and
inverted conjuncts at concrete degenerate books. -/
theorem spread_guard_characterization_c4_witness :
    get_orderbook_spread_bps (some { bids := [1/2], asks := [13/25] }) =
      some ((13/25 - 1/2) / ((1/2 + 13/25) / 2) * 10000) ∧
    get_orderbook_spread_bps (some { bids := [], asks := [13/25] }) = none ∧
    get_orderbook_spread_bps (some { bids := [3/5], asks := [1/2] }) = none := by
  refine ⟨?_, ?_, ?_⟩
  · exact spread_guard_characterization_c4.2.1 { bids := [1/2], asks := [13/25] }
      (1/2) (13/25) rfl rfl (by norm_num) (by norm_num) (by norm_num)
  · exact spread_guard_characterization_c4.2.2.2.1 { bids := [], asks := [13/25] }
      (Or.inl rfl)
  · exact spread_guard_characterization_c4.2.2.2.2 { bids := [3/5], asks := [1/2] }
      (3/5) (1/2) rfl rfl (by norm_num)

/-- Python str.lower() applied before the keyword matching, as the
character list the substring operations below run on. -/
def lc (s : String) : List Char := s.toList.map Char.toLower

/-- Index of the first occurrence of needle in hay, None when absent:
the search behind Python str.find and the in operator. -/
def find_from (needle : List Char) : List Char → Option Nat
  | [] => if needle.isPrefixOf [] then some 0 else none
  | c :: t =>
    if needle.isPrefixOf (c :: t) then some 0
    else (find_from needle t).map (fun n => n + 1)

/-- Python str.find: first index or -1. -/
def py_find (hay needle : List Char) : Int :=
  match find_from needle hay with
  | some n => (n : Int)
  | none => -1

/-- Python substring containment (the in operator). -/
def py_contains (hay needle : List Char) : Bool :=
  (find_from needle hay).isSome

/-- The keyword list of strategy._is_sports_market. -/
def sports_keywords : List String :=
  ["win", "championship", "super bowl", "nba", "nfl", "mlb", "nhl", "playoffs", "finals",
   "game", "match", "vs", "premier league", "ufc", "mma", "tennis"]

/-- Embeds strategy._is_sports_market: sports category or any keyword in
the lowercased question. -/
def is_sports_market (m : Market) : Bool :=
  py_contains (lc m.category) ("sports".toList) ||
    sports_keywords.any (fun kw => py_contains (lc m.question) kw.toList)

/-- An external odds event as assembled by
strategy._fetch_external_sports_odds: the two team names, the normalized
consensus probabilities, and the bookmaker count (which the source only
embeds in the textual source tag "consensus (n books)"). -/
structure ExternalEvent where
  teams : List String
  probabilities : List (String × ℚ)
  n_books : Nat
deriving DecidableEq, Repr

/-- Python dict membership and read on the probabilities of an event. -/
def probs_lookup (probs : List (String × ℚ)) (team : String) : Option ℚ :=
  (probs.find? (fun e => e.1 == team)).map Prod.snd

/-- Embeds the action-verb position of strategy._match_to_external: the
minimum of the nonnegative entries among find("win"), find("beat") and
the question length. -/
def action_position (q : List Char) : Int :=
  (([py_find q ("win".toList), py_find q ("beat".toList), (q.length : Int)]).filter
    (fun p => 0 ≤ p)).foldl min (q.length : Int)

/-- Embeds the per-team loop of strategy._match_to_external: the first
team appearing in the question before the action verb and present in the
probabilities wins. -/
def match_loop (q : List Char) (probs : List (String × ℚ)) : List String → Option ℚ
  | [] => none
  | team :: rest =>
    match find_from (lc team) q with
    | none => match_loop q probs rest
    | some team_pos =>
      if (team_pos : Int) < action_position q ∧ (probs_lookup probs team).isSome = true then
        probs_lookup probs team
      else match_loop q probs rest

/-- Embeds strategy._match_to_external: for the first event whose team
names all appear in the lowercased question, the subject-team match (or
the single-mentioned-team fallback) yields the implied YES probability;
otherwise continue with the remaining events. -/
def match_to_external (m : Market) : List ExternalEvent → Option ℚ
  | [] => none
  | ev :: rest =>
    let q := lc m.question
    if ev.teams.all (fun t => py_contains q (lc t)) then
      match match_loop q ev.probabilities ev.teams with
      | some p => some p
      | none =>
        match ev.teams.filter (fun t => py_contains q (lc t)) with
        | [t] =>
          match probs_lookup ev.probabilities t with
          | some p => some p
          | none => match_to_external m rest
        | _ => match_to_external m rest
    else match_to_external m rest

/-- Embeds the per-market body of strategy.find_value_sports_signals:
when a matched external probability differs from the Polymarket YES
price by at least min_edge_pct (in percent), emit a signal on the
underpriced side with the hard-coded confidence 0.7. -/
def value_sports_signal (events : List ExternalEvent) (min_edge_pct : ℚ) (m : Market) :
    Option Signal :=
  match match_to_external m events with
  | none => none
  | some ext_prob =>
    let poly_price := m.price_yes
    let edge := ext_prob - poly_price
    if min_edge_pct ≤ |edge * 100| then
      if 0 < edge then
        some { market := m, side := "YES", strategy := "value_sports",
               edge_pct := edge * 100, confidence := 7/10, entry_price := poly_price }
      else
        some { market := m, side := "NO", strategy := "value_sports",
               edge_pct := |edge| * 100, confidence := 7/10, entry_price := m.price_no }
    else none

/-- Embeds strategy.find_value_sports_signals: empty without an api key
or external odds; otherwise run the per-market body over the sports
markets and sort by score descending. The events argument stands for the
result of _fetch_external_sports_odds. -/
def find_value_sports_signals (api_key : String) (events : List ExternalEvent)
    (markets : List Market) (min_edge_pct : ℚ) : List Signal :=
  if api_key = "" then []
  else if events = [] then []
  else
    List.insertionSort sigGE
      ((markets.filter (fun m => is_sports_market m)).filterMap
        (value_sports_signal events min_edge_pct))

/-- One h2h market row of a bookmaker response. -/
structure BmMarket where
  key : String
  outcomes : List (String × ℚ)
deriving DecidableEq, Repr

/-- One bookmaker of an external odds event. -/
structure Bookmaker where
  markets : List BmMarket
deriving DecidableEq, Repr

/-- The implied probabilities 1/odds collected for one team across all
bookmakers, from strategy._average_bookmaker_probs: only h2h markets,
only outcomes naming the team with decimal odds above 1. -/
def implied_probs_for (team : String) (bookmakers : List Bookmaker) : List ℚ :=
  bookmakers.flatMap (fun bm =>
    (bm.markets.filter (fun mk => mk.key == "h2h")).flatMap (fun mk =>
      (mk.outcomes.filter (fun o => o.1 == team && decide (1 < o.2))).map
        (fun o => 1 / o.2)))

/-- The key list of the Python dict comprehension over teams: first
occurrences in order, later duplicates dropped. -/
def dedup_keys : List String → List String
  | [] => []
  | t :: rest => t :: (dedup_keys rest).filter (fun u => u ≠ t)

/-- Embeds strategy._average_bookmaker_probs: average the implied
probabilities per team and normalize to sum to 1 when the total is
positive; None without bookmakers, teams, or any collected entry. -/
def average_bookmaker_probs (bookmakers : List Bookmaker) (teams : List String) :
    Option (List (String × ℚ)) :=
  if bookmakers = [] ∨ teams = [] then none
  else
    let avg := (dedup_keys teams).filterMap (fun t =>
      let probs_list := implied_probs_for t bookmakers
      if probs_list = [] then none
      else some (t, probs_list.sum / (probs_list.length : ℚ)))
    if avg = [] then none
    else
      let total := (avg.map Prod.snd).sum
      if 0 < total then some (avg.map (fun e => (e.1, e.2 / total)))
      else some avg

/-- Embeds the event assembly of strategy._fetch_external_sports_odds
for one upstream event: home and away teams and the bookmaker list give
the consensus probabilities and the book count. -/
def assemble_event (home away : String) (bookmakers : List Bookmaker) :
    Option ExternalEvent :=
  match average_bookmaker_probs bookmakers [home, away] with
  | some probs =>
    some { teams := [home, away], probabilities := probs, n_books := bookmakers.length }
  | none => none

/-- Three identical bookmakers quoting decimal odds 2.0 for both teams
of one h2h event. -/
def c10Books : List Bookmaker :=
  [{ markets := [{ key := "h2h", outcomes := [("la", 2), ("bos", 2)] }] },
   { markets := [{ key := "h2h", outcomes := [("la", 2), ("bos", 2)] }] },
   { markets := [{ key := "h2h", outcomes := [("la", 2), ("bos", 2)] }] }]

/-- The external consensus event assembled from c10Books: probabilities
0.5 / 0.5 over three books. -/
def c10Event : ExternalEvent :=
  { teams := ["la", "bos"], probabilities := [("la", 1/2), ("bos", 1/2)], n_books := 3 }

/-- A sports market on the same two teams, YES priced at 0.40, ten
points below the external consensus. -/
def c10Mkt : Market :=
  { id := "m10", question := "la win bos", token_id_yes := "ty10", token_id_no := "tn10",
    price_yes := 2/5, price_no := 3/5, volume := 100000, liquidity := 20000,
    category := "sports" }

/-- The value_sports signal emitted on c10Mkt against c10Event. -/
def c10Sig : Signal :=
  { market := c10Mkt, side := "YES", strategy := "value_sports",
    edge_pct := (1/2 - 2/5) * 100, confidence := 7/10, entry_price := 2/5 }

theorem c10_run : find_value_sports_signals "key" [c10Event] [c10Mkt] 8 = [c10Sig] := by
  have hsig : value_sports_signal [c10Event] 8 c10Mkt = some c10Sig := by
    rw [value_sports_signal.eq_def]
    rw [show match_to_external c10Mkt [c10Event] = some (1/2) from rfl]
    dsimp only
    rw [if_pos (by norm_num [c10Mkt] : (8:ℚ) ≤ |(1/2 - c10Mkt.price_yes) * 100|)]
    rw [if_pos (by norm_num [c10Mkt] : (0:ℚ) < 1/2 - c10Mkt.price_yes)]
    rfl
  rw [find_value_sports_signals]
  rw [if_neg (by decide), if_neg (by simp)]
  rw [show List.filter (fun m => is_sports_market m) [c10Mkt] = [c10Mkt] from rfl]
  simp only [List.filterMap_cons, List.filterMap_nil, hsig]
  rfl

/-- C10 counterexample: the consensus event built from three bookmakers
produces one value_sports signal whose confidence is the hard-coded 0.7,
not min(n_books/8, 1.0) = 3/8 as the claim states. -/
theorem value_sports_confidence_c10_counterexample :
    assemble_event "la" "bos" c10Books = some c10Event ∧
    (find_value_sports_signals "key" [c10Event] [c10Mkt] 8).map
      (fun s => (s.confidence, s.side)) = [(7/10, "YES")] ∧
    (7:ℚ)/10 ≠ min ((c10Event.n_books : ℚ) / 8) 1 := by
  refine ⟨?_, by rw [c10_run]; rfl, ?_⟩
  · have hne1 : ¬("bos" : String) = "la" := by decide
    have hne2 : ¬("la" : String) = "bos" := by decide
    norm_num [assemble_event, average_bookmaker_probs, implied_probs_for, c10Books,
      c10Event, List.filterMap_cons, List.filter_cons, List.flatMap_cons, List.flatMap_nil,
      dedup_keys, hne1, hne2, List.cons_ne_nil]
  · have h3 : (c10Event.n_books : ℚ) = 3 := by norm_num [c10Event]
    rw [h3]
    rw [show min ((3:ℚ)/8) 1 = 3/8 by rw [min_eq_left (by norm_num)]]
    norm_num

/-- C10 amended: every signal emitted by find_value_sports_signals
carries the constant confidence 0.7 regardless of the bookmaker count;
the min(n_books/8, 1.0) formula lives in the separate OddsApiModel, not
in this strategy. -/
theorem value_sports_confidence_c10 :
    ∀ (api_key : String) (events : List ExternalEvent) (markets : List Market)
      (min_edge_pct : ℚ) (s : Signal),
      s ∈ find_value_sports_signals api_key events markets min_edge_pct →
      s.confidence = 7/10 ∧ s.strategy = "value_sports" := by
  intro api_key events markets min_edge_pct s hs
  rw [find_value_sports_signals] at hs
  split at hs
  · exact absurd hs (List.not_mem_nil s)
  split at hs
  · exact absurd hs (List.not_mem_nil s)
  rw [List.mem_insertionSort, List.mem_filterMap] at hs
  obtain ⟨m, hm, hsig⟩ := hs
  rw [value_sports_signal.eq_def] at hsig
  split at hsig
  · exact absurd hsig (by simp)
  dsimp only at hsig
  split at hsig
  · split at hsig
    · rw [Option.some_inj] at hsig
      subst hsig
      exact ⟨rfl, rfl⟩
    · rw [Option.some_inj] at hsig
      subst hsig
      exact ⟨rfl, rfl⟩
  · exact absurd hsig (by simp)

/-- Witness for C10 amended: applied to the concrete run, whose emitted
signal is in the result by evaluation. -/
theorem value_sports_confidence_c10_witness :
    c10Sig ∈ find_value_sports_signals "key" [c10Event] [c10Mkt] 8 ∧
    c10Sig.confidence = 7/10 := by
  have hmem : c10Sig ∈ find_value_sports_signals "key" [c10Event] [c10Mkt] 8 := by
    rw [c10_run]
    exact List.mem_singleton_self _
  exact ⟨hmem, (value_sports_confidence_c10 "key" [c10Event] [c10Mkt] 8 c10Sig hmem).1⟩

end Polymarketv3
